import Mathlib

/-!
Shallow embedding of the `DataMan` data-representation accessor:
the client variant (`src/client/data-man-api.js`) and the server
buffer variant (`src/server/data-man-buffer.js`).

Callbacks are modelled as data: each method returns the list of
invocations of the caller-supplied callback (`events`), the exception
propagated into the caller's control flow if any (`thrown`), the updated
instance state (`st`), and a count (`io`) of invocations of the
underlying platform primitives that move or transcode bytes
(base64 decode of a data URI, HTTP fetch, file-reader conversion).
Browser capabilities that the code probes (`FileReader`, `Blob.slice`,
`window`, the `Blob`/`File` constructors) and the outcomes of the
asynchronous primitives are collected in a `BrowserEnv` record.
-/

/-- The distinct error conditions the source raises or passes to
callbacks, one constructor per distinct `new Error(...)` site plus the
platform-generated failures (transport error, reader error, `atob`
failure, unresolvable identifier). -/
inductive JsError
  | unsupportedInput
  | unrecognizedInput
  | blobsUnsupported
  | fileReaderUnsupported
  | sliceUnsupported
  | rangeOutOfBounds (size : Nat)
  | missingContentType
  | getDataUriNeedsCallback
  | sizeNeedsCallback
  | windowUndefined
  | referenceErrorSelf
  | transport (msg : String)
  | readFailure (msg : String)
  | invalidBase64
deriving DecidableEq, Repr

/-- A browser Blob: an immutable byte sequence plus a MIME type string
(`""` when the type is unset, as in the Blob API). -/
structure Blob where
  bytes : List Nat
  type : String
deriving DecidableEq, Repr

/-- Byte size of a blob, `Blob.size` as in the Blob API. -/
def Blob.size (b : Blob) : Nat := b.bytes.length

/-- The standard base64 alphabet. -/
def b64Alphabet : List Char :=
  "ABCDEFGHIJKLMNOPQRSTUVWXYZabcdefghijklmnopqrstuvwxyz0123456789+/".toList

/-- Character for a 6-bit value. -/
def b64char (n : Nat) : Char := b64Alphabet.getD n 'A'

/-- The 6-bit value of an alphabet character, `none` if not in the alphabet. -/
def b64val (c : Char) : Option Nat := b64Alphabet.findIdx? (· = c)

/-- Base64 encoding of a byte list (standard alphabet, `=` padding).
Model of `buffer.toString("base64")` and of the payload produced by
`FileReader.readAsDataURL`. -/
def base64Encode : List Nat → String
  | [] => ""
  | [a] => String.mk [b64char (a / 4), b64char (a % 4 * 16), '=', '=']
  | [a, b] => String.mk [b64char (a / 4), b64char (a % 4 * 16 + b / 16), b64char (b % 16 * 4), '=']
  | a :: b :: c :: rest =>
      String.mk [b64char (a / 4), b64char (a % 4 * 16 + b / 16),
                 b64char (b % 16 * 4 + c / 64), b64char (c % 64)]
        ++ base64Encode rest

/-- Regroup 6-bit values into bytes (final partial group contributes
its whole bytes only), as base64 decoding does. -/
def b64Regroup : List Nat → List Nat
  | a :: b :: c :: d :: rest =>
      (a * 4 + b / 16) :: (b % 16 * 16 + c / 4) :: (c % 4 * 64 + d) :: b64Regroup rest
  | [a, b] => [a * 4 + b / 16]
  | [a, b, c] => [a * 4 + b / 16, b % 16 * 16 + c / 4]
  | _ => []

/-- Whether a character is ASCII whitespace, which `atob` strips. -/
def isB64Whitespace (c : Char) : Bool :=
  c = ' ' ∨ c = '\t' ∨ c = '\n' ∨ c = '\r' ∨ c = '\x0c'

/-- Model of the browser `atob` primitive composed with the
char-code-extraction loop of `dataURItoBlob`: forgiving-base64 decode
to a byte list, `none` when `atob` would throw `InvalidCharacterError`. -/
def atob (s : String) : Option (List Nat) :=
  let cs := s.toList.filter (fun c => !isB64Whitespace c)
  let cs :=
    if cs.length % 4 = 0 then
      if cs.reverse.take 2 = ['=', '='] then cs.dropLast.dropLast
      else if cs.reverse.take 1 = ['='] then cs.dropLast
      else cs
    else cs
  if cs.length % 4 = 1 then none
  else if cs.any (fun c => (b64val c).isNone) then none
  else some (b64Regroup (cs.map (fun c => (b64val c).getD 0)))

/-- JS `String.prototype.indexOf` for a single character: index of the
first occurrence, `-1` when absent. -/
def jsIndexOf (s : String) (c : Char) : Int :=
  match s.toList.findIdx? (· = c) with
  | some i => (i : Int)
  | none => -1

/-- JS `String.prototype.slice` with its relative-index semantics
(negative indices count from the end, result empty when the clamped
range is empty). -/
def jsStringSlice (s : String) (start stop : Int) : String :=
  let len : Int := s.length
  let lo : Int := if start < 0 then max (len + start) 0 else min start len
  let hi : Int := if stop < 0 then max (len + stop) 0 else min stop len
  if lo < hi then String.mk ((s.toList.drop lo.toNat).take (hi - lo).toNat) else ""

/-- JS `Blob.prototype.slice` with relative-index semantics; the third
argument is the content type of the new blob (`""` when omitted or
`undefined`). -/
def Blob.slice (b : Blob) (start stop : Int) (ctype : Option String) : Blob :=
  let size : Int := b.bytes.length
  let lo : Int := if start < 0 then max (size + start) 0 else min start size
  let hi : Int := if stop < 0 then max (size + stop) 0 else min stop size
  let span : Int := max (hi - lo) 0
  ⟨(b.bytes.drop lo.toNat).take span.toNat, ctype.getD ""⟩

/-- The host capabilities and asynchronous-primitive outcomes the
client code depends on. `fetch` gives the outcome of the binary HTTP
GET that `getBlob` issues for a URL-backed instance; `readErr` /
`readUrlErr`, when set, make `readAsArrayBuffer` / `readAsDataURL`
report failure through the reader's error event. -/
structure BrowserEnv where
  hasFileCtor : Bool
  hasBlobCtor : Bool
  hasFileReader : Bool
  hasSlice : Bool
  hasWindow : Bool
  fetch : String → Except String Blob
  readErr : Option String
  readUrlErr : Option String

/-- The client `DataMan` instance state: exactly one of `blob`,
`dataUri`, `url` is set by the constructor; `blob` and `_size` are
populated lazily; `type` is the MIME type when known. -/
structure DataMan where
  blob : Option Blob := none
  dataUri : Option String := none
  url : Option String := none
  type : Option String := none
  _size : Option Nat := none
deriving DecidableEq, Repr

/-- The value shapes a JS caller can pass to the `DataMan` constructor:
a `File`, a `Blob`, an `ArrayBuffer`/`Uint8Array` (byte data), a string,
or anything else. -/
inductive JsData
  | file (b : Blob)
  | blob (b : Blob)
  | binaryData (bytes : List Nat)
  | str (s : String)
  | other
deriving DecidableEq, Repr

/-- Check `data instanceof File` guarded by `typeof File !== "undefined"`. -/
def isFileInstance (env : BrowserEnv) : JsData → Bool
  | .file _ => env.hasFileCtor
  | _ => false

/-- Check `data instanceof Blob` guarded by `typeof Blob !== "undefined"`
(a `File` is an instance of `Blob`). -/
def isBlobInstance (env : BrowserEnv) : JsData → Bool
  | .file _ => env.hasBlobCtor
  | .blob _ => env.hasBlobCtor
  | _ => false

/-- Check `data instanceof ArrayBuffer || EJSON.isBinary(data)`. -/
def isBinaryInput : JsData → Bool
  | .binaryData _ => true
  | _ => false

/-- The payload blob of a file/blob-shaped input. -/
def payloadBlob : JsData → Option Blob
  | .file b => some b
  | .blob b => some b
  | _ => none

/-- The `DataMan` constructor (`data-man-api.js` lines 8-42): classify
the input, store exactly one of `blob` / `dataUri` / `url`, and record
the MIME type. Synchronous faults are returned as `Except.error`. -/
def DataMan.construct (env : BrowserEnv) (data : JsData) (type? : Option String) :
    Except JsError DataMan :=
  if isFileInstance env data then
    match payloadBlob data with
    | some b => .ok { blob := some b, type := some b.type }
    | none => .error .unsupportedInput
  else if isBlobInstance env data then
    match payloadBlob data with
    | some b => .ok { blob := some b, type := some b.type }
    | none => .error .unsupportedInput
  else if isBinaryInput data then
    match data with
    | .binaryData bytes =>
        if env.hasBlobCtor then
          .ok { blob := some ⟨bytes, type?.getD ""⟩, type := type? }
        else .error .blobsUnsupported
    | _ => .error .unsupportedInput
  else
    match data with
    | .str s =>
        if jsStringSlice s 0 5 = "data:" then
          .ok { dataUri := some s, type := some (jsStringSlice s 5 (jsIndexOf s ';')) }
        else if jsStringSlice s 0 5 = "http:" ∨ jsStringSlice s 0 6 = "https:" then
          .ok { url := some s, type := type? }
        else .error .unrecognizedInput
    | _ => .error .unsupportedInput

/-- JS `String.prototype.split` with a single-character separator,
on the character list of the string. -/
def jsSplitChar (c : Char) : List Char → List (List Char)
  | [] => [[]]
  | x :: xs =>
      match jsSplitChar c xs with
      | [] => [[x]]
      | y :: ys => if x = c then [] :: y :: ys else (x :: y) :: ys

/-- Model of `dataURItoBlob` (`data-man-api.js` lines 230-234): split on commas,
take the second field (when there is no comma, `atob` receives the
string `"undefined"` and throws, modelled as `none`), base64-decode it,
and wrap the bytes in a blob typed with the given content type. -/
def dataURItoBlob (dataURI : String) (dataTYPE : Option String) : Option Blob :=
  match (jsSplitChar ',' dataURI.toList).get? 1 with
  | none => none
  | some part =>
      match atob (String.mk part) with
      | none => none
      | some bytes => some ⟨bytes, dataTYPE.getD ""⟩

/-- Result of a callback-style method on state `σ` delivering values of
type `α`: the callback invocations, the exception raised into the
caller if any, the final instance state, and the count of byte-moving
primitive operations performed. -/
structure CbRes (σ α : Type) where
  events : List (Except JsError α) := []
  thrown : Option JsError := none
  st : σ
  io : Nat := 0

/-- Model of `DataMan.prototype.getBlob` (`data-man-api.js` lines 52-72): cached
blob, else synchronous data-URI decode (cached), else HTTP fetch
(cached on success). When none of the three fields is set the function
falls through without invoking the callback. -/
def DataMan.getBlob (env : BrowserEnv) (dm : DataMan) : CbRes DataMan Blob :=
  match dm.blob with
  | some b => { events := [.ok b], st := dm }
  | none =>
    match dm.dataUri with
    | some uri =>
        match dataURItoBlob uri dm.type with
        | some b => { events := [.ok b], st := { dm with blob := some b }, io := 1 }
        | none => { thrown := some .invalidBase64, st := dm }
    | none =>
      match dm.url with
      | some u =>
          match env.fetch u with
          | .ok b => { events := [.ok b], st := { dm with blob := some b }, io := 1 }
          | .error msg => { events := [.error (.transport msg)], st := dm, io := 1 }
      | none => { st := dm }

/-- First error among a list of callback invocations. -/
def firstError {α : Type} : List (Except JsError α) → Option JsError
  | [] => none
  | .error e :: _ => some e
  | .ok _ :: rest => firstError rest

/-- Routing through `callback || defaultCallback`: with a
caller-supplied callback the events reach it unchanged; with the
default callback (`data-man-api.js` lines 245-256) successes are
dropped and the first error is thrown into the caller's control flow
(none of the errors this module produces is a `Meteor.Error`). -/
def routeCb {σ α : Type} (cbGiven : Bool) (r : CbRes σ α) : CbRes σ α :=
  if cbGiven then r
  else { events := [], thrown := firstError r.events, st := r.st, io := r.io }

/-- The inner `read` helper of `getBinary` (`data-man-api.js` lines
92-106) composed with `FileReader.readAsArrayBuffer`: callback events
and the number of reader operations performed. -/
def readAsArrayBuffer (env : BrowserEnv) (b : Blob) :
    List (Except JsError (List Nat)) × Nat :=
  if env.hasFileReader then
    match env.readErr with
    | some msg => ([.error (.readFailure msg)], 1)
    | none => ([.ok b.bytes], 1)
  else ([.error .fileReaderUnsupported], 0)

/-- Model of `DataMan.prototype.getBinary` (`data-man-api.js` lines 84-135).
`start`/`stop` are `some i` when the corresponding argument is a JS
number and `none` otherwise (omitted, a function via the arity
overload, or any non-number); `cbGiven` is whether an actual callback
ends up bound (either as third argument or via the `start` overload) as
opposed to `defaultCallback`. The ranged branch runs only when both
`start` and `stop` are numbers; it checks `start >= size` first, then
clamps `stop`, then requires a slicing primitive, then reads the slice. -/
def DataMan.getBinary (env : BrowserEnv) (dm : DataMan) (start stop : Option Int)
    (cbGiven : Bool) : CbRes DataMan (List Nat) :=
  let gb := DataMan.getBlob env dm
  match gb.thrown with
  | some e => { thrown := some e, st := gb.st, io := gb.io }
  | none =>
    match gb.events with
    | [.error e] => routeCb cbGiven { events := [.error e], st := gb.st, io := gb.io }
    | [.ok b] =>
        match start, stop with
        | some s, some e =>
            let size := b.size
            if (size : Int) ≤ s then
              routeCb cbGiven
                { events := [.error (.rangeOutOfBounds size)], st := gb.st, io := gb.io }
            else
              let e2 : Int := min (size : Int) e
              if env.hasSlice then
                let rd := readAsArrayBuffer env (b.slice s e2 dm.type)
                routeCb cbGiven { events := rd.1, st := gb.st, io := gb.io + rd.2 }
              else
                routeCb cbGiven
                  { events := [.error .sliceUnsupported], st := gb.st, io := gb.io }
        | _, _ =>
            let rd := readAsArrayBuffer env b
            routeCb cbGiven { events := rd.1, st := gb.st, io := gb.io + rd.2 }
    | _ => { st := gb.st, io := gb.io }

/-- What `DataMan.prototype.saveAs` (`data-man-api.js` lines 146-159)
does: `saved` is the blob/filename handed to the `window.saveAs`
capability, `thrown` the exception raised into the caller's control
flow — note the source re-throws a `getBlob` error from inside the
asynchronous continuation instead of using a callback. -/
structure SaveRes where
  saved : Option (Blob × Option String) := none
  thrown : Option JsError := none
  st : DataMan
  io : Nat := 0

/-- Model of `DataMan.prototype.saveAs` (`data-man-api.js` lines 146-159). -/
def DataMan.saveAs (env : BrowserEnv) (dm : DataMan) (filename : Option String) : SaveRes :=
  if env.hasWindow then
    let gb := DataMan.getBlob env dm
    match gb.thrown with
    | some e => { thrown := some e, st := gb.st, io := gb.io }
    | none =>
      match gb.events with
      | [.error e] => { thrown := some e, st := gb.st, io := gb.io }
      | [.ok b] => { saved := some (b, filename), st := gb.st, io := gb.io }
      | _ => { st := gb.st, io := gb.io }
  else { thrown := some .windowUndefined, st := dm }

/-- Model of the `FileReader.readAsDataURL` platform primitive: a data
URI with the blob's type and the base64 encoding of its bytes. -/
def readAsDataURL (b : Blob) : String :=
  "data:" ++ b.type ++ ";base64," ++ base64Encode b.bytes

/-- Model of `DataMan.prototype.getDataUri` (`data-man-api.js` lines 166-198):
requires a callback (synchronous throw otherwise), requires
`FileReader`, then obtains the blob and converts it with
`readAsDataURL` on EVERY call, assigning `self.dataUri` from the
conversion result before invoking the callback. There is no cache
check. -/
def DataMan.getDataUri (env : BrowserEnv) (dm : DataMan) (cbGiven : Bool) :
    CbRes DataMan String :=
  if cbGiven then
    if env.hasFileReader then
      let gb := DataMan.getBlob env dm
      match gb.thrown with
      | some e => { thrown := some e, st := gb.st, io := gb.io }
      | none =>
        match gb.events with
        | [.error e] => { events := [.error e], st := gb.st, io := gb.io }
        | [.ok b] =>
            match env.readUrlErr with
            | some msg =>
                { events := [.error (.readFailure msg)], st := gb.st, io := gb.io + 1 }
            | none =>
                let uri := readAsDataURL b
                { events := [.ok uri], st := { gb.st with dataUri := some uri },
                  io := gb.io + 1 }
        | _ => { st := gb.st, io := gb.io }
    else { events := [.error .fileReaderUnsupported], st := dm }
  else { thrown := some .getDataUriNeedsCallback, st := dm }

/-- What `DataMan.prototype.size` does: callback invocations, the
method's direct return value when it returns the cached number, the
exception thrown when the callback is missing, final state, io count. -/
structure SizeRes where
  events : List (Except JsError Nat) := []
  ret : Option Nat := none
  thrown : Option JsError := none
  st : DataMan
  io : Nat := 0

/-- Model of `DataMan.prototype.size` (`data-man-api.js` lines 200-219): throws
without a callback; when `_size` is cached it RETURNS the number
directly without invoking the callback; otherwise it obtains the blob,
caches `blob.size` and delivers it to the callback. -/
def DataMan.size (env : BrowserEnv) (dm : DataMan) (cbGiven : Bool) : SizeRes :=
  if cbGiven then
    match dm._size with
    | some n => { ret := some n, st := dm }
    | none =>
        let gb := DataMan.getBlob env dm
        match gb.thrown with
        | some e => { thrown := some e, st := gb.st, io := gb.io }
        | none =>
          match gb.events with
          | [.error e] => { events := [.error e], st := gb.st, io := gb.io }
          | [.ok b] =>
              { events := [.ok b.size], st := { gb.st with _size := some b.size },
                io := gb.io }
          | _ => { st := gb.st, io := gb.io }
  else { thrown := some .sizeNeedsCallback, st := dm }

/-- The server `DataMan.Buffer` instance state
(`data-man-buffer.js` lines 3-7): the raw buffer and the type set by
the constructor, plus the lazily populated `dataUri` and `_size`. -/
structure DataManBuffer where
  buffer : List Nat
  _type : Option String := none
  dataUri : Option String := none
  _size : Option Nat := none
deriving DecidableEq, Repr

/-- The `DataMan.Buffer` constructor (`data-man-buffer.js` lines 3-7). -/
def DataManBuffer.construct (buffer : List Nat) (type? : Option String) : DataManBuffer :=
  { buffer := buffer, _type := type? }

/-- Model of `DataMan.Buffer.prototype.getBuffer` (`data-man-buffer.js` lines 17-19). -/
def DataManBuffer.getBuffer (dm : DataManBuffer) : CbRes DataManBuffer (List Nat) :=
  { events := [.ok dm.buffer], st := dm }

/-- Model of `DataMan.Buffer.prototype.getDataUri` (`data-man-buffer.js` lines
28-42): cached data URI if set; fails with the missing-content-type
error when `self._type` is falsy (unset or the empty string); otherwise
synchronously base64-encodes the buffer (one io operation) and caches
the result. -/
def DataManBuffer.getDataUri (dm : DataManBuffer) : CbRes DataManBuffer String :=
  match dm.dataUri with
  | some u => { events := [.ok u], st := dm }
  | none =>
    match dm._type with
    | none => { events := [.error .missingContentType], st := dm }
    | some t =>
        if t = "" then { events := [.error .missingContentType], st := dm }
        else
          let u := "data:" ++ t ++ ";base64," ++ base64Encode dm.buffer
          { events := [.ok u], st := { dm with dataUri := some u }, io := 1 }

/-- A read stream produced by the `simple-bufferstream` module over a
byte buffer. -/
structure ReadStream where
  source : List Nat
deriving DecidableEq, Repr

/-- The `simple-bufferstream` export: wraps a buffer in a read stream. -/
def sbs (buffer : List Nat) : ReadStream := ⟨buffer⟩

/-- The binding of the identifier `self` in the scope surrounding
`dataManBufferCreateReadStream`: the function body never declares
`var self = this`, no enclosing scope in the module declares `self`,
and the Node/Meteor server global object has no `self` property, so the
identifier resolves to nothing. -/
def serverGlobalSelf : Option DataManBuffer := none

/-- Model of `DataMan.Buffer.prototype.createReadStream` (`data-man-buffer.js`
lines 50-52): `return sbs(self.buffer)` — `self` resolves through
`serverGlobalSelf`, and an unresolvable identifier is a synchronous
`ReferenceError`. The `dm` receiver (`this`) is never consulted. -/
def DataManBuffer.createReadStream (_dm : DataManBuffer) : Except JsError ReadStream :=
  match serverGlobalSelf with
  | none => .error .referenceErrorSelf
  | some s => .ok (sbs s.buffer)

/-- Model of `DataMan.Buffer.prototype.size` (`data-man-buffer.js` lines 61-71):
delivers the cached size when set, else reads `buffer.length` (one io
operation), caches and delivers it. The callback is invoked in both
branches. -/
def DataManBuffer.size (dm : DataManBuffer) : CbRes DataManBuffer Nat :=
  match dm._size with
  | some n => { events := [.ok n], st := dm }
  | none =>
      let n := dm.buffer.length
      { events := [.ok n], st := { dm with _size := some n }, io := 1 }

/-- Model of `DataMan.Buffer.prototype.type` (`data-man-buffer.js` lines 79-81). -/
def DataManBuffer.type (dm : DataManBuffer) : Option String := dm._type

instance {α : Type} [DecidableEq α] : DecidableEq (Except JsError α) :=
  fun a b =>
    match a, b with
    | .ok x, .ok y =>
        if h : x = y then isTrue (by rw [h]) else isFalse (fun hh => h (Except.ok.inj hh))
    | .error x, .error y =>
        if h : x = y then isTrue (by rw [h]) else isFalse (fun hh => h (Except.error.inj hh))
    | .ok _, .error _ => isFalse (fun h => Except.noConfusion h)
    | .error _, .ok _ => isFalse (fun h => Except.noConfusion h)

/-- A fully capable browser environment with no network and no reader
failures, used to instantiate concrete scenarios. -/
def stdEnv : BrowserEnv :=
  { hasFileCtor := true, hasBlobCtor := true, hasFileReader := true,
    hasSlice := true, hasWindow := true,
    fetch := fun _ => .error "offline", readErr := none, readUrlErr := none }

/-- A browser environment whose HTTP GET succeeds with the given blob
for every URL. -/
def fetchEnv (b : Blob) : BrowserEnv :=
  { stdEnv with fetch := fun _ => .ok b }

/-- One call to an accessor method of the client instance, with its
arguments (callback contents are irrelevant to the state evolution). -/
inductive AccessorOp
  | aGetBlob
  | aGetBinary (start stop : Option Int) (cbGiven : Bool)
  | aGetDataUri (cbGiven : Bool)
  | aSize (cbGiven : Bool)
  | aSaveAs (filename : Option String)

/-- The instance state after one accessor call. -/
def applyOp (env : BrowserEnv) (dm : DataMan) : AccessorOp → DataMan
  | .aGetBlob => (DataMan.getBlob env dm).st
  | .aGetBinary s e cb => (DataMan.getBinary env dm s e cb).st
  | .aGetDataUri cb => (DataMan.getDataUri env dm cb).st
  | .aSize cb => (DataMan.size env dm cb).st
  | .aSaveAs fn => (DataMan.saveAs env dm fn).st

/-- The instance state after a sequence of accessor calls. -/
def runOps (env : BrowserEnv) : DataMan → List AccessorOp → DataMan
  | dm, [] => dm
  | dm, op :: rest => runOps env (applyOp env dm op) rest

/-- Predicate: `st` keeps the source identity of `dm`: the URL and MIME type are
unchanged and a cached blob is never cleared or replaced. -/
def preservesSource (dm st : DataMan) : Prop :=
  st.url = dm.url ∧ st.type = dm.type ∧ ∀ b, dm.blob = some b → st.blob = some b

/-- Routing with a caller-supplied callback is the identity. -/
theorem routeCb_true {σ α : Type} (r : CbRes σ α) : routeCb true r = r := rfl

/-- Routing never changes the instance state. -/
theorem routeCb_st {σ α : Type} (cb : Bool) (r : CbRes σ α) :
    (routeCb cb r).st = r.st := by
  unfold routeCb
  split <;> rfl

/-- When `getBlob` delivers a blob, nothing was thrown and the blob is
cached on the resulting state. -/
theorem getBlob_ok (env : BrowserEnv) (dm : DataMan) (b : Blob)
    (hb : (DataMan.getBlob env dm).events = [.ok b]) :
    (DataMan.getBlob env dm).thrown = none ∧
    (DataMan.getBlob env dm).st.blob = some b := by
  revert hb
  unfold DataMan.getBlob
  split
  all_goals try split
  all_goals try split
  all_goals try split
  all_goals intro hb
  all_goals simp_all

/-- The method `getBlob` never touches `url`, `type`, `_size`, and never clears or
replaces an already-cached blob. -/
theorem getBlob_st_preserves (env : BrowserEnv) (dm : DataMan) :
    (DataMan.getBlob env dm).st.url = dm.url ∧
    (DataMan.getBlob env dm).st.type = dm.type ∧
    (DataMan.getBlob env dm).st.dataUri = dm.dataUri ∧
    (DataMan.getBlob env dm).st._size = dm._size ∧
    ∀ b, dm.blob = some b → (DataMan.getBlob env dm).st.blob = some b := by
  unfold DataMan.getBlob
  split
  all_goals try split
  all_goals try split
  all_goals try split
  all_goals simp_all

/-- C9: for every `DataMan.Buffer` instance, `createReadStream` never
returns a read stream over that instance's buffer: the body passes
`self.buffer` to the stream constructor, but `self` is not declared
anywhere in the function's scope, so the call faults on an undefined
identifier (`ReferenceError`) instead of using the instance's data. -/
theorem c9_createReadStream_undefined_self (dm : DataManBuffer) :
    DataManBuffer.createReadStream dm = .error .referenceErrorSelf := rfl

/-- C2: whenever `getBlob` delivers the blob `b` and `start ≥ b.size`,
`getBinary(start, end, cb)` delivers exactly one callback invocation,
carrying the range-out-of-bounds error, and no data bytes. -/
theorem c2_getBinary_start_beyond_size (env : BrowserEnv) (dm : DataMan) (b : Blob)
    (s e : Int) (hb : (DataMan.getBlob env dm).events = [.ok b])
    (hs : (b.size : Int) ≤ s) :
    (DataMan.getBinary env dm (some s) (some e) true).events
      = [.error (.rangeOutOfBounds b.size)] := by
  have h := getBlob_ok env dm b hb
  simp [DataMan.getBinary, h.1, hb, hs, routeCb]

/-- Witness for C2: a 2-byte blob-backed instance with `start = 5`. -/
theorem c2_witness :
    (DataMan.getBlob stdEnv { blob := some ⟨[1, 2], "t"⟩ }).events = [.ok ⟨[1, 2], "t"⟩] ∧
    ((Blob.size ⟨[1, 2], "t"⟩ : Int) ≤ 5) ∧
    (DataMan.getBinary stdEnv { blob := some ⟨[1, 2], "t"⟩ } (some 5) (some 9) true).events
      = [.error (.rangeOutOfBounds 2)] := by
  refine ⟨by decide, by decide, ?_⟩
  exact c2_getBinary_start_beyond_size stdEnv { blob := some ⟨[1, 2], "t"⟩ } ⟨[1, 2], "t"⟩
    5 9 (by decide) (by decide)

/-- C10: when `getBinary` is called with a numeric `start` but a
non-numeric or omitted `end`, the ranged branch is skipped entirely:
the whole data is delivered, with no clamping and no range error, even
when `start ≥ totalSize` (`start` is unconstrained here). -/
theorem c10_getBinary_nonnumeric_end (env : BrowserEnv) (dm : DataMan) (b : Blob)
    (s : Int) (hb : (DataMan.getBlob env dm).events = [.ok b])
    (hfr : env.hasFileReader = true) (hre : env.readErr = none) :
    (DataMan.getBinary env dm (some s) none true).events = [.ok b.bytes] := by
  have h := getBlob_ok env dm b hb
  simp [DataMan.getBinary, h.1, hb, readAsArrayBuffer, hfr, hre, routeCb]

/-- Witness for C10: a 2-byte blob-backed instance with `start = 100`,
far beyond the total size, still delivers the whole data. -/
theorem c10_witness :
    (DataMan.getBlob stdEnv { blob := some ⟨[7, 8], "t"⟩ }).events = [.ok ⟨[7, 8], "t"⟩] ∧
    (DataMan.getBinary stdEnv { blob := some ⟨[7, 8], "t"⟩ } (some 100) none true).events
      = [.ok [7, 8]] := by
  refine ⟨by decide, ?_⟩
  exact c10_getBinary_nonnumeric_end stdEnv { blob := some ⟨[7, 8], "t"⟩ } ⟨[7, 8], "t"⟩
    100 (by decide) rfl rfl

/-- Slicing a blob on an in-range request keeps exactly the bytes from
`s` (inclusive) to `e2` (exclusive). -/
theorem blobSlice_range (b : Blob) (s e2 : Int) (ct : Option String)
    (h0 : 0 ≤ s) (hs : s < (b.bytes.length : Int))
    (h2 : 0 ≤ e2) (h3 : e2 ≤ (b.bytes.length : Int)) :
    (b.slice s e2 ct).bytes = (b.bytes.drop s.toNat).take (e2 - s).toNat := by
  simp only [Blob.slice]
  rw [if_neg (by omega), if_neg (by omega)]
  have hlo : min s (b.bytes.length : Int) = s := min_eq_left (le_of_lt hs)
  have hhi : min e2 (b.bytes.length : Int) = e2 := min_eq_left h3
  rw [hlo, hhi]
  have hspan : (max (e2 - s) 0).toNat = (e2 - s).toNat := by omega
  rw [hspan]

/-- C1 (amended with `start ≤ end`): whenever `getBlob` delivers the
blob `b`, the slicing and reading primitives are available, and
`0 ≤ start < b.size` with `start ≤ end`, `getBinary(start, end, cb)`
delivers exactly the bytes of the full data from index `start` up to
(but excluding) `min(end, totalSize)`, and the number of delivered
bytes is exactly `min(end, totalSize) - start`. -/
theorem c1_getBinary_range_delivers_slice (env : BrowserEnv) (dm : DataMan) (b : Blob)
    (s e : Int) (hb : (DataMan.getBlob env dm).events = [.ok b])
    (hfr : env.hasFileReader = true) (hsl : env.hasSlice = true)
    (hre : env.readErr = none)
    (h0 : 0 ≤ s) (hs : s < (b.size : Int)) (hse : s ≤ e) :
    (DataMan.getBinary env dm (some s) (some e) true).events
      = [.ok ((b.bytes.drop s.toNat).take (min (b.size : Int) e - s).toNat)] ∧
    ((((b.bytes.drop s.toNat).take (min (b.size : Int) e - s).toNat).length : Int)
      = min (b.size : Int) e - s) := by
  have h := getBlob_ok env dm b hb
  have hlen : b.size = b.bytes.length := rfl
  have hslice := blobSlice_range b s (min (b.size : Int) e) dm.type h0
    (by rw [hlen] at hs; exact hs)
    (by rw [hlen] at hs; omega)
    (by rw [hlen] at hs; omega)
  constructor
  · simp [DataMan.getBinary, h.1, hb, not_le.mpr hs, hsl, readAsArrayBuffer, hfr, hre,
      routeCb, hslice]
  · simp only [List.length_take, List.length_drop]
    rw [hlen] at hs ⊢
    omega

/-- Witness for C1: a 4-byte blob-backed instance, `start = 1`,
`end = 9`: delivers bytes 1..3 (3 bytes, `min(9,4) - 1 = 3`). -/
theorem c1_witness :
    (DataMan.getBinary stdEnv { blob := some ⟨[1, 2, 3, 4], "t"⟩ } (some 1) (some 9) true).events
      = [.ok ((([1, 2, 3, 4] : List Nat).drop (1 : Int).toNat).take
          (min ((Blob.size ⟨[1, 2, 3, 4], "t"⟩ : Nat) : Int) 9 - 1).toNat)] ∧
    (((((([1, 2, 3, 4] : List Nat).drop (1 : Int).toNat).take
          (min ((Blob.size ⟨[1, 2, 3, 4], "t"⟩ : Nat) : Int) 9 - 1).toNat)).length : Int)
      = min ((Blob.size ⟨[1, 2, 3, 4], "t"⟩ : Nat) : Int) 9 - 1) :=
  c1_getBinary_range_delivers_slice stdEnv { blob := some ⟨[1, 2, 3, 4], "t"⟩ }
    ⟨[1, 2, 3, 4], "t"⟩ 1 9 (by decide) rfl rfl rfl (by decide) (by decide) (by decide)

/-- Counterexample to C1 as stated: it quantifies over every pair of
integers with `0 ≤ start < totalSize` only, so take a 2-byte instance
with `start = 1`, `end = 0`: the code delivers 0 bytes, while the claim
requires exactly `min(end, totalSize) - start = -1` bytes. -/
theorem c1_counterexample :
    (DataMan.getBinary stdEnv { blob := some ⟨[10, 20], "t"⟩ } (some 1) (some 0) true).events
      = [.ok []] ∧
    ¬ ((List.length ([] : List Nat) : Int)
        = min (0 : Int) ((Blob.size ⟨[10, 20], "t"⟩ : Nat) : Int) - 1) := by
  constructor
  · decide
  · decide

/-- When the client `size` delivers `n` to the callback, `n` is cached
on the resulting state. -/
theorem size_ok_caches (env : BrowserEnv) (dm : DataMan) (n : Nat)
    (h : (DataMan.size env dm true).events = [.ok n]) :
    (DataMan.size env dm true).st._size = some n := by
  unfold DataMan.size at h ⊢
  generalize hg : DataMan.getBlob env dm = gb at h ⊢
  obtain ⟨evs, thr, st0, io0⟩ := gb
  cases hsz : dm._size with
  | some m =>
      rw [hsz] at h
      simp_all
  | none =>
      rw [hsz] at h
      cases thr with
      | some e => simp_all
      | none =>
          cases evs with
          | nil => simp_all
          | cons a t =>
              cases t with
              | cons b2 t2 => simp_all
              | nil =>
                  cases a with
                  | error e => simp_all
                  | ok b => simp_all

/-- The client `size` on a cached instance returns the number directly,
invokes no callback, and performs no io. -/
theorem size_cached (env : BrowserEnv) (st : DataMan) (n : Nat)
    (h : st._size = some n) :
    (DataMan.size env st true).ret = some n ∧
    (DataMan.size env st true).events = [] ∧
    (DataMan.size env st true).io = 0 := by
  unfold DataMan.size
  simp [h]

/-- The buffer `size` on a cached instance redelivers the cached value
with no io. -/
theorem bufferSize_cached (st : DataManBuffer) (n : Nat) (h : st._size = some n) :
    (DataManBuffer.size st).events = [.ok n] ∧ (DataManBuffer.size st).io = 0 := by
  unfold DataManBuffer.size
  simp [h]

/-- When the buffer `size` delivers `n`, `n` is cached on the resulting
state. -/
theorem bufferSize_ok_caches (dm : DataManBuffer) (n : Nat)
    (h : (DataManBuffer.size dm).events = [.ok n]) :
    (DataManBuffer.size dm).st._size = some n := by
  revert h
  unfold DataManBuffer.size
  split
  all_goals intro h
  all_goals simp_all

/-- C3 (amended): calling `size` twice yields the same integer with no
second io, but the two variants deliver it differently on the second
call: the client variant returns the cached number directly without
invoking the callback, while the buffer variant invokes the callback
again. -/
theorem c3_size_idempotent_amended :
    (∀ (env : BrowserEnv) (dm : DataMan) (n : Nat),
      (DataMan.size env dm true).events = [.ok n] →
      (DataMan.size env (DataMan.size env dm true).st true).ret = some n ∧
      (DataMan.size env (DataMan.size env dm true).st true).events = [] ∧
      (DataMan.size env (DataMan.size env dm true).st true).io = 0) ∧
    (∀ (dm : DataManBuffer) (n : Nat),
      (DataManBuffer.size dm).events = [.ok n] →
      (DataManBuffer.size (DataManBuffer.size dm).st).events = [.ok n] ∧
      (DataManBuffer.size (DataManBuffer.size dm).st).io = 0) := by
  constructor
  · intro env dm n h
    exact size_cached env (DataMan.size env dm true).st n (size_ok_caches env dm n h)
  · intro dm n h
    exact bufferSize_cached (DataManBuffer.size dm).st n (bufferSize_ok_caches dm n h)

/-- Witness for C3 (amended): both variants at a concrete 3-byte datum. -/
theorem c3_witness :
    ((DataMan.size stdEnv { blob := some ⟨[1, 2, 3], "t"⟩ } true).events = [.ok 3] ∧
      (DataMan.size stdEnv (DataMan.size stdEnv { blob := some ⟨[1, 2, 3], "t"⟩ } true).st true).ret
        = some 3) ∧
    ((DataManBuffer.size ⟨[4, 5], none, none, none⟩).events = [.ok 2] ∧
      (DataManBuffer.size (DataManBuffer.size ⟨[4, 5], none, none, none⟩).st).events = [.ok 2]) := by
  refine ⟨⟨by decide, ?_⟩, ⟨by decide, ?_⟩⟩
  · exact (c3_size_idempotent_amended.1 stdEnv { blob := some ⟨[1, 2, 3], "t"⟩ } 3 (by decide)).1
  · exact (c3_size_idempotent_amended.2 ⟨[4, 5], none, none, none⟩ 2 (by decide)).1

/-- Counterexample to C3 as stated: on the client variant, the second
`size` call does NOT deliver the integer to the callback — it performs
zero callback invocations and returns the cached number directly. -/
theorem c3_counterexample :
    (DataMan.size stdEnv { blob := some ⟨[1, 2, 3], "t"⟩ } true).events = [.ok 3] ∧
    (DataMan.size stdEnv (DataMan.size stdEnv { blob := some ⟨[1, 2, 3], "t"⟩ } true).st true).events
      = [] ∧
    (DataMan.size stdEnv (DataMan.size stdEnv { blob := some ⟨[1, 2, 3], "t"⟩ } true).st true).ret
      = some 3 := by
  refine ⟨by decide, by decide, by decide⟩

/-- Calling `getBlob` on an instance with a cached blob returns it immediately
with no io and no state change. -/
theorem getBlob_cached (env : BrowserEnv) (dm : DataMan) (b : Blob)
    (h : dm.blob = some b) :
    DataMan.getBlob env dm = { events := [.ok b], thrown := none, st := dm, io := 0 } := by
  unfold DataMan.getBlob
  rw [h]

/-- When the client `getDataUri` delivers `u`, the reader was present,
the conversion succeeded, and `u` (the fresh conversion of the blob) is
assigned to the `dataUri` field of the resulting state. -/
theorem getDataUri_ok (env : BrowserEnv) (dm : DataMan) (u : String)
    (h : (DataMan.getDataUri env dm true).events = [.ok u]) :
    env.hasFileReader = true ∧ env.readUrlErr = none ∧
    ∃ b : Blob, (DataMan.getBlob env dm).events = [.ok b] ∧
      (DataMan.getDataUri env dm true).st
        = { (DataMan.getBlob env dm).st with dataUri := some u } ∧
      u = readAsDataURL b := by
  revert h
  unfold DataMan.getDataUri
  cases hfr : env.hasFileReader with
  | false => intro h; simp at h
  | true =>
      generalize hg : DataMan.getBlob env dm = gb
      obtain ⟨evs, thr, st0, io0⟩ := gb
      cases thr with
      | some e => intro h; simp at h
      | none =>
          cases evs with
          | nil => intro h; simp at h
          | cons a t =>
              cases t with
              | cons b2 t2 => intro h; simp at h
              | nil =>
                  cases a with
                  | error e => intro h; simp at h
                  | ok b =>
                      cases hru : env.readUrlErr with
                      | some m => intro h; simp at h
                      | none =>
                          intro h
                          simp at h
                          refine ⟨rfl, rfl, ⟨b, rfl, ?_, h.symm⟩⟩
                          simp [h]

/-- When the buffer `getDataUri` delivers `u`, `u` is cached on the
resulting state. -/
theorem bufferGetDataUri_ok_caches (dm : DataManBuffer) (u : String)
    (h : (DataManBuffer.getDataUri dm).events = [.ok u]) :
    (DataManBuffer.getDataUri dm).st.dataUri = some u := by
  revert h
  unfold DataManBuffer.getDataUri
  split
  all_goals try split
  all_goals try split
  all_goals intro h
  all_goals simp_all

/-- The buffer `getDataUri` on an instance with a cached data URI
redelivers it with no io. -/
theorem bufferGetDataUri_cached (st : DataManBuffer) (u : String)
    (h : st.dataUri = some u) :
    (DataManBuffer.getDataUri st).events = [.ok u] ∧
    (DataManBuffer.getDataUri st).io = 0 := by
  unfold DataManBuffer.getDataUri
  simp [h]

/-- C4 (amended): `getBlob` memoizes (a second call after a successful
one delivers the cached blob with zero io), and the buffer variant's
`getDataUri` memoizes likewise; but the client `getDataUri` never
checks its cache: a second call after a successful one performs the
file-reader conversion again (exactly one io operation), overwriting
the cached field. -/
theorem c4_memoization_amended :
    (∀ (env : BrowserEnv) (dm : DataMan) (b : Blob),
      (DataMan.getBlob env dm).events = [.ok b] →
      DataMan.getBlob env (DataMan.getBlob env dm).st
        = { events := [.ok b], thrown := none, st := (DataMan.getBlob env dm).st, io := 0 }) ∧
    (∀ (dm : DataManBuffer) (u : String),
      (DataManBuffer.getDataUri dm).events = [.ok u] →
      (DataManBuffer.getDataUri (DataManBuffer.getDataUri dm).st).events = [.ok u] ∧
      (DataManBuffer.getDataUri (DataManBuffer.getDataUri dm).st).io = 0) ∧
    (∀ (env : BrowserEnv) (dm : DataMan) (u : String),
      (DataMan.getDataUri env dm true).events = [.ok u] →
      (DataMan.getDataUri env (DataMan.getDataUri env dm true).st true).io = 1) := by
  refine ⟨?_, ?_, ?_⟩
  · intro env dm b h
    exact getBlob_cached env (DataMan.getBlob env dm).st b (getBlob_ok env dm b h).2
  · intro dm u h
    exact bufferGetDataUri_cached (DataManBuffer.getDataUri dm).st u
      (bufferGetDataUri_ok_caches dm u h)
  · intro env dm u h
    obtain ⟨hfr, hru, b, hb, hst, hu⟩ := getDataUri_ok env dm u h
    set st2 := (DataMan.getDataUri env dm true).st with hst2
    have hblob : st2.blob = some b := by
      rw [hst]
      simpa using (getBlob_ok env dm b hb).2
    unfold DataMan.getDataUri
    rw [getBlob_cached env st2 b hblob]
    simp [hfr, hru]

/-- Witness for C4 (amended): a data-URI-backed instance for `getBlob`
memoization, a buffer instance for the buffer `getDataUri`, and a
blob-backed instance for the client `getDataUri` recomputation. -/
theorem c4_witness :
    (DataMan.getBlob stdEnv
        { dataUri := some "data:text/plain;base64,SGVsbG8=", type := some "text/plain" }).events
      = [.ok ⟨[72, 101, 108, 108, 111], "text/plain"⟩] ∧
    DataMan.getBlob stdEnv
        (DataMan.getBlob stdEnv
          { dataUri := some "data:text/plain;base64,SGVsbG8=", type := some "text/plain" }).st
      = { events := [.ok ⟨[72, 101, 108, 108, 111], "text/plain"⟩], thrown := none,
          st := (DataMan.getBlob stdEnv
            { dataUri := some "data:text/plain;base64,SGVsbG8=", type := some "text/plain" }).st,
          io := 0 } ∧
    (DataManBuffer.getDataUri
        (DataManBuffer.getDataUri ⟨[72, 101, 108, 108, 111], some "text/plain", none, none⟩).st).io
      = 0 ∧
    (DataMan.getDataUri stdEnv
        (DataMan.getDataUri stdEnv { blob := some ⟨[72, 101, 108, 108, 111], "text/plain"⟩ } true).st
        true).io = 1 := by
  refine ⟨by decide, ?_, ?_, ?_⟩
  · exact c4_memoization_amended.1 stdEnv
      { dataUri := some "data:text/plain;base64,SGVsbG8=", type := some "text/plain" }
      ⟨[72, 101, 108, 108, 111], "text/plain"⟩ (by decide)
  · exact (c4_memoization_amended.2.1 ⟨[72, 101, 108, 108, 111], some "text/plain", none, none⟩
      "data:text/plain;base64,SGVsbG8=" (by decide)).2
  · exact c4_memoization_amended.2.2 stdEnv { blob := some ⟨[72, 101, 108, 108, 111], "text/plain"⟩ }
      "data:text/plain;base64,SGVsbG8=" (by decide)

/-- Counterexample to C4 as stated: on the client variant, after a
first successful `getDataUri` the value IS cached on the instance, yet
a second `getDataUri` call still performs a file-reader conversion
(one io operation, not zero) — the accessor never consults its cache. -/
theorem c4_counterexample :
    (DataMan.getDataUri stdEnv { blob := some ⟨[72, 101, 108, 108, 111], "text/plain"⟩ } true).st.dataUri
      = some "data:text/plain;base64,SGVsbG8=" ∧
    (DataMan.getDataUri stdEnv
        (DataMan.getDataUri stdEnv { blob := some ⟨[72, 101, 108, 108, 111], "text/plain"⟩ } true).st
        true).io = 1 ∧
    ¬ (DataMan.getDataUri stdEnv
        (DataMan.getDataUri stdEnv { blob := some ⟨[72, 101, 108, 108, 111], "text/plain"⟩ } true).st
        true).io = 0 := by
  refine ⟨by decide, by decide, by decide⟩

/-- Calling `getBlob` on a URL-backed instance whose fetch fails delivers the
transport error to the callback (and throws nothing). -/
theorem getBlob_url_error (env : BrowserEnv) (dm : DataMan) (u m : String)
    (h1 : dm.blob = none) (h2 : dm.dataUri = none) (h3 : dm.url = some u)
    (h4 : env.fetch u = .error m) :
    DataMan.getBlob env dm
      = { events := [.error (.transport m)], thrown := none, st := dm, io := 1 } := by
  unfold DataMan.getBlob
  rw [h1, h2, h3]
  simp [h4]

/-- With a caller-supplied callback, `getBinary` propagates exactly the
`getBlob` throw status: every fault of its own is delivered through the
callback, never thrown. -/
theorem getBinary_thrown_eq (env : BrowserEnv) (dm : DataMan) (s e : Option Int) :
    (DataMan.getBinary env dm s e true).thrown = (DataMan.getBlob env dm).thrown := by
  unfold DataMan.getBinary
  generalize DataMan.getBlob env dm = gb
  obtain ⟨evs, thr, st0, io0⟩ := gb
  cases thr with
  | some e2 => simp
  | none =>
      rcases evs with _ | ⟨a, _ | ⟨b2, t⟩⟩
      · simp
      · cases a with
        | error e2 => simp [routeCb]
        | ok b =>
            cases s <;> cases e <;> simp [routeCb]
            all_goals repeat' split
            all_goals simp [routeCb]
      · simp

/-- The client `getDataUri` with a callback throws only what `getBlob`
throws. -/
theorem getDataUri_thrown (env : BrowserEnv) (dm : DataMan)
    (h : (DataMan.getBlob env dm).thrown = none) :
    (DataMan.getDataUri env dm true).thrown = none := by
  unfold DataMan.getDataUri
  cases hfr : env.hasFileReader with
  | false => simp
  | true =>
      generalize hg : DataMan.getBlob env dm = gb at h ⊢
      obtain ⟨evs, thr, st0, io0⟩ := gb
      simp at h
      subst h
      rcases evs with _ | ⟨a, _ | ⟨b2, t⟩⟩
      · simp
      · cases a with
        | error e2 => simp
        | ok b => cases env.readUrlErr <;> simp
      · simp

/-- The client `size` with a callback throws only what `getBlob`
throws. -/
theorem size_thrown (env : BrowserEnv) (dm : DataMan)
    (h : (DataMan.getBlob env dm).thrown = none) :
    (DataMan.size env dm true).thrown = none := by
  unfold DataMan.size
  cases hsz : dm._size with
  | some n => simp
  | none =>
      generalize hg : DataMan.getBlob env dm = gb at h ⊢
      obtain ⟨evs, thr, st0, io0⟩ := gb
      simp at h
      subst h
      rcases evs with _ | ⟨a, _ | ⟨b2, t⟩⟩
      · simp
      · cases a <;> simp
      · simp

/-- C5 (amended): with a caller-supplied callback, `getBinary`,
`getDataUri` and `size` never raise into the caller's control flow
(provided `getBlob` itself throws nothing, i.e. the stored data URI is
decodable); a fault discovered after the asynchronous fetch suspension
is delivered through the callback's error slot. `saveAs` is the
exception — see the counterexample: it re-throws such faults. -/
theorem c5_async_errors_via_callback_amended (env : BrowserEnv) (dm : DataMan)
    (h : (DataMan.getBlob env dm).thrown = none) :
    (∀ s e : Option Int, (DataMan.getBinary env dm s e true).thrown = none) ∧
    (DataMan.getDataUri env dm true).thrown = none ∧
    (DataMan.size env dm true).thrown = none ∧
    (∀ u m, dm.blob = none → dm.dataUri = none → dm.url = some u →
      env.fetch u = .error m →
      (DataMan.getBinary env dm none none true).events = [.error (.transport m)]) := by
  refine ⟨?_, getDataUri_thrown env dm h, size_thrown env dm h, ?_⟩
  · intro s e
    rw [getBinary_thrown_eq env dm s e]
    exact h
  · intro u m h1 h2 h3 h4
    simp [DataMan.getBinary, getBlob_url_error env dm u m h1 h2 h3 h4, routeCb]

/-- Witness for C5 (amended): a URL-backed instance with a failing
fetch delivers the transport error through the callback and throws
nothing. -/
theorem c5_witness :
    (DataMan.getBlob stdEnv { url := some "http://x" }).thrown = none ∧
    (DataMan.getBinary stdEnv { url := some "http://x" } none none true).thrown = none ∧
    (DataMan.getBinary stdEnv { url := some "http://x" } none none true).events
      = [.error (.transport "offline")] := by
  refine ⟨by decide, ?_, ?_⟩
  · exact (c5_async_errors_via_callback_amended stdEnv { url := some "http://x" } (by decide)).1
      none none
  · exact (c5_async_errors_via_callback_amended stdEnv { url := some "http://x" } (by decide)).2.2.2
      "http://x" "offline" rfl rfl rfl rfl

/-- Counterexample to C5 as stated: `saveAs` on a URL-backed instance
whose fetch fails raises the transport error into the caller's control
flow (from inside the asynchronous continuation) and hands nothing to
any callback — the claim's "every asynchronous method, including
saveAs" is false. -/
theorem c5_counterexample :
    (DataMan.saveAs stdEnv { url := some "http://x" } (some "f.bin")).thrown
      = some (.transport "offline") ∧
    (DataMan.saveAs stdEnv { url := some "http://x" } (some "f.bin")).saved = none := by
  refine ⟨by decide, by decide⟩

/-- C7: the buffer-backed variant constructed from `[72,101,108,108,111]`
with type `"text/plain"` delivers exactly
`"data:text/plain;base64,SGVsbG8="`; in general with a (truthy) type
`t` it delivers `"data:" ++ t ++ ";base64," ++ base64(buffer)`, and
with no type it fails immediately with the missing-content-type error. -/
theorem c7_buffer_getDataUri :
    (DataManBuffer.construct [72, 101, 108, 108, 111] (some "text/plain")).getDataUri.events
      = [.ok "data:text/plain;base64,SGVsbG8="] ∧
    (∀ (bytes : List Nat) (t : String), t ≠ "" →
      (DataManBuffer.construct bytes (some t)).getDataUri.events
        = [.ok ("data:" ++ t ++ ";base64," ++ base64Encode bytes)]) ∧
    (∀ bytes : List Nat,
      (DataManBuffer.construct bytes none).getDataUri.events
        = [.error .missingContentType]) := by
  refine ⟨by decide, ?_, ?_⟩
  · intro bytes t ht
    unfold DataManBuffer.construct DataManBuffer.getDataUri
    simp [ht]
  · intro bytes
    unfold DataManBuffer.construct DataManBuffer.getDataUri
    simp

/-- Witness for C7: the general clauses at concrete inputs. -/
theorem c7_witness :
    (DataManBuffer.construct [1, 2] (some "application/x")).getDataUri.events
      = [.ok ("data:" ++ "application/x" ++ ";base64," ++ base64Encode [1, 2])] ∧
    (DataManBuffer.construct [1, 2] none).getDataUri.events
      = [.error .missingContentType] := by
  refine ⟨?_, ?_⟩
  · exact c7_buffer_getDataUri.2.1 [1, 2] "application/x" (by decide)
  · exact c7_buffer_getDataUri.2.2 [1, 2]

/-- Evaluating `jsStringSlice` with in-range nonnegative indices is take-drop on
the character list. -/
theorem jsStringSlice_toList (s : String) (a b : Int) (ha : 0 ≤ a) (hb2 : 0 ≤ b)
    (hab : a ≤ (s.length : Int)) (hbb : b ≤ (s.length : Int)) :
    jsStringSlice s a b = String.mk ((s.toList.drop a.toNat).take (b - a).toNat) := by
  simp only [jsStringSlice]
  simp only [if_neg (show ¬(a < 0) by omega), if_neg (show ¬(b < 0) by omega)]
  rw [min_eq_left hab, min_eq_left hbb]
  by_cases h : a < b
  · rw [if_pos h]
  · rw [if_neg h]
    have hz : (b - a).toNat = 0 := by omega
    rw [hz]
    rfl

/-- C6: the constructor classification (in a runtime providing the
`File` and `Blob` constructors): file/blob inputs are stored as blob
references with their own declared type, before and regardless of the
byte-array check; byte arrays become blobs carrying the hint type; a
string starting with `data:` is stored as a data URI whose MIME type is
the substring between the 5th character and the first following `;`
(so `"data:text/plain;base64,SGVsbG8="` yields `"text/plain"`); any
other non-`http:`/`https:` string faults with the unrecognized-string
error and any other shape faults with the unsupported-input error, both
synchronously as constructor faults. -/
theorem c6_constructor_classification (env : BrowserEnv)
    (hf : env.hasFileCtor = true) (hbc : env.hasBlobCtor = true) :
    (∀ (b : Blob) (t? : Option String),
      DataMan.construct env (.file b) t? = .ok { blob := some b, type := some b.type } ∧
      DataMan.construct env (.blob b) t? = .ok { blob := some b, type := some b.type }) ∧
    (∀ (bytes : List Nat) (t? : Option String),
      DataMan.construct env (.binaryData bytes) t?
        = .ok { blob := some ⟨bytes, t?.getD ""⟩, type := t? }) ∧
    (∀ (s : String) (t? : Option String), jsStringSlice s 0 5 = "data:" →
      DataMan.construct env (.str s) t?
        = .ok { dataUri := some s, type := some (jsStringSlice s 5 (jsIndexOf s ';')) }) ∧
    (∀ (s : String) (j : Nat), s.toList.findIdx? (fun c => c = ';') = some j →
      5 ≤ j → j ≤ s.length →
      jsStringSlice s 5 (jsIndexOf s ';') = String.mk ((s.toList.drop 5).take (j - 5))) ∧
    (DataMan.construct stdEnv (.str "data:text/plain;base64,SGVsbG8=") none
      = .ok { dataUri := some "data:text/plain;base64,SGVsbG8=", type := some "text/plain" }) ∧
    (∀ (s : String) (t? : Option String),
      jsStringSlice s 0 5 ≠ "data:" → jsStringSlice s 0 5 ≠ "http:" →
      jsStringSlice s 0 6 ≠ "https:" →
      DataMan.construct env (.str s) t? = .error .unrecognizedInput) ∧
    (∀ t? : Option String, DataMan.construct env .other t? = .error .unsupportedInput) := by
  refine ⟨?_, ?_, ?_, ?_, by decide, ?_, ?_⟩
  · intro b t?
    constructor
    · unfold DataMan.construct
      simp [isFileInstance, payloadBlob, hf]
    · unfold DataMan.construct
      simp [isFileInstance, isBlobInstance, payloadBlob, hbc]
  · intro bytes t?
    unfold DataMan.construct
    simp [isFileInstance, isBlobInstance, isBinaryInput, hbc]
  · intro s t? hd
    unfold DataMan.construct
    simp [isFileInstance, isBlobInstance, isBinaryInput, hd]
  · intro s j hj h5 hlen
    have hidx : jsIndexOf s ';' = (j : Int) := by
      unfold jsIndexOf
      rw [hj]
    rw [hidx]
    rw [jsStringSlice_toList s 5 (j : Int) (by omega) (by omega) (by omega) (by omega)]
    have h1 : ((5 : Int)).toNat = 5 := rfl
    have h2 : (((j : Nat) : Int) - 5).toNat = j - 5 := by omega
    rw [h1, h2]
  · intro s t? hd1 hd2 hd3
    unfold DataMan.construct
    simp [isFileInstance, isBlobInstance, isBinaryInput, hd1, hd2, hd3]
  · intro t?
    unfold DataMan.construct
    simp [isFileInstance, isBlobInstance, isBinaryInput]

/-- Witness for C6: each classification clause at a concrete input. -/
theorem c6_witness :
    (DataMan.construct stdEnv (.file ⟨[1], "a/b"⟩) (some "x/y")
      = .ok { blob := some ⟨[1], "a/b"⟩, type := some "a/b" }) ∧
    (DataMan.construct stdEnv (.binaryData [1, 2]) (some "x/y")
      = .ok { blob := some ⟨[1, 2], "x/y"⟩, type := some "x/y" }) ∧
    (DataMan.construct stdEnv (.str "data:a/b;base64,AA==") none
      = .ok { dataUri := some "data:a/b;base64,AA==",
              type := some (jsStringSlice "data:a/b;base64,AA==" 5 (jsIndexOf "data:a/b;base64,AA==" ';')) }) ∧
    (jsStringSlice "data:a/b;base64,AA==" 5 (jsIndexOf "data:a/b;base64,AA==" ';')
      = String.mk ((("data:a/b;base64,AA==" : String).toList.drop 5).take (8 - 5))) ∧
    (DataMan.construct stdEnv (.str "ftp://host/f") none = .error .unrecognizedInput) ∧
    (DataMan.construct stdEnv .other none = .error .unsupportedInput) := by
  refine ⟨?_, ?_, ?_, ?_, ?_, ?_⟩
  · exact ((c6_constructor_classification stdEnv rfl rfl).1 ⟨[1], "a/b"⟩ (some "x/y")).1
  · exact (c6_constructor_classification stdEnv rfl rfl).2.1 [1, 2] (some "x/y")
  · exact (c6_constructor_classification stdEnv rfl rfl).2.2.1 "data:a/b;base64,AA==" none
      (by decide)
  · exact (c6_constructor_classification stdEnv rfl rfl).2.2.2.1 "data:a/b;base64,AA==" 8
      (by decide) (by decide) (by decide)
  · exact (c6_constructor_classification stdEnv rfl rfl).2.2.2.2.2.1 "ftp://host/f" none
      (by decide) (by decide) (by decide)
  · exact (c6_constructor_classification stdEnv rfl rfl).2.2.2.2.2.2 none

/-- The method `getBinary` leaves the state exactly as `getBlob` left it. -/
theorem getBinary_st (env : BrowserEnv) (dm : DataMan) (s e : Option Int) (cb : Bool) :
    (DataMan.getBinary env dm s e cb).st = (DataMan.getBlob env dm).st := by
  unfold DataMan.getBinary
  generalize DataMan.getBlob env dm = gb
  obtain ⟨evs, thr, st0, io0⟩ := gb
  cases thr with
  | some e2 => simp
  | none =>
      rcases evs with _ | ⟨a, _ | ⟨b2, t⟩⟩
      · simp
      · cases a with
        | error e2 => simp [routeCb_st]
        | ok b =>
            split
            all_goals try simp [routeCb_st]
            all_goals split
            all_goals try simp [routeCb_st]
            all_goals split <;> simp [routeCb_st]
      · simp

/-- The state after client `getDataUri` is the old state, the `getBlob`
state, or the `getBlob` state with a new `dataUri`. -/
theorem getDataUri_st_cases (env : BrowserEnv) (dm : DataMan) (cb : Bool) :
    (DataMan.getDataUri env dm cb).st = dm ∨
    (DataMan.getDataUri env dm cb).st = (DataMan.getBlob env dm).st ∨
    ∃ u, (DataMan.getDataUri env dm cb).st
      = { (DataMan.getBlob env dm).st with dataUri := some u } := by
  unfold DataMan.getDataUri
  cases cb with
  | false => simp
  | true =>
      cases env.hasFileReader with
      | false => simp
      | true =>
          generalize DataMan.getBlob env dm = gb
          obtain ⟨evs, thr, st0, io0⟩ := gb
          cases thr with
          | some e => simp
          | none =>
              rcases evs with _ | ⟨a, _ | ⟨b2, t⟩⟩
              · simp
              · cases a with
                | error e => simp
                | ok b =>
                    cases env.readUrlErr with
                    | some m => simp
                    | none =>
                        right; right
                        exact ⟨readAsDataURL b, rfl⟩
              · simp

/-- The state after client `size` is the old state, the `getBlob`
state, or the `getBlob` state with a new `_size`. -/
theorem size_st_cases (env : BrowserEnv) (dm : DataMan) (cb : Bool) :
    (DataMan.size env dm cb).st = dm ∨
    (DataMan.size env dm cb).st = (DataMan.getBlob env dm).st ∨
    ∃ n, (DataMan.size env dm cb).st
      = { (DataMan.getBlob env dm).st with _size := some n } := by
  unfold DataMan.size
  cases cb with
  | false => simp
  | true =>
      cases dm._size with
      | some n => simp
      | none =>
          generalize DataMan.getBlob env dm = gb
          obtain ⟨evs, thr, st0, io0⟩ := gb
          cases thr with
          | some e => simp
          | none =>
              rcases evs with _ | ⟨a, _ | ⟨b2, t⟩⟩
              · simp
              · cases a with
                | error e => simp
                | ok b =>
                    right; right
                    exact ⟨b.size, rfl⟩
              · simp

/-- The state after `saveAs` is the old state or the `getBlob` state. -/
theorem saveAs_st_cases (env : BrowserEnv) (dm : DataMan) (fn : Option String) :
    (DataMan.saveAs env dm fn).st = dm ∨
    (DataMan.saveAs env dm fn).st = (DataMan.getBlob env dm).st := by
  unfold DataMan.saveAs
  cases env.hasWindow with
  | false => simp
  | true =>
      generalize DataMan.getBlob env dm = gb
      obtain ⟨evs, thr, st0, io0⟩ := gb
      cases thr with
      | some e => simp
      | none =>
          rcases evs with _ | ⟨a, _ | ⟨b2, t⟩⟩
          · simp
          · cases a <;> simp
          · simp

/-- Source identity is reflexive. -/
theorem preservesSource_refl (dm : DataMan) : preservesSource dm dm :=
  ⟨rfl, rfl, fun _ h => h⟩

/-- The method `getBlob` keeps the source identity. -/
theorem preservesSource_getBlobSt (env : BrowserEnv) (dm : DataMan) :
    preservesSource dm (DataMan.getBlob env dm).st := by
  have hp := getBlob_st_preserves env dm
  exact ⟨hp.1, hp.2.1, hp.2.2.2.2⟩

/-- Overwriting the cached `dataUri` keeps the source identity fields. -/
theorem preservesSource_setDataUri (dm st : DataMan) (u : Option String)
    (h : preservesSource dm st) : preservesSource dm { st with dataUri := u } :=
  ⟨h.1, h.2.1, h.2.2⟩

/-- Overwriting the cached `_size` keeps the source identity fields. -/
theorem preservesSource_setSize (dm st : DataMan) (n : Option Nat)
    (h : preservesSource dm st) : preservesSource dm { st with _size := n } :=
  ⟨h.1, h.2.1, h.2.2⟩

/-- Every single accessor call keeps the source identity. -/
theorem applyOp_preserves (env : BrowserEnv) (dm : DataMan) (op : AccessorOp) :
    preservesSource dm (applyOp env dm op) := by
  cases op with
  | aGetBlob =>
      simp only [applyOp]
      exact preservesSource_getBlobSt env dm
  | aGetBinary s e cb =>
      simp only [applyOp]
      rw [getBinary_st env dm s e cb]
      exact preservesSource_getBlobSt env dm
  | aGetDataUri cb =>
      simp only [applyOp]
      rcases getDataUri_st_cases env dm cb with h | h | ⟨u, h⟩
      · rw [h]; exact preservesSource_refl dm
      · rw [h]; exact preservesSource_getBlobSt env dm
      · rw [h]; exact preservesSource_setDataUri dm _ (some u) (preservesSource_getBlobSt env dm)
  | aSize cb =>
      simp only [applyOp]
      rcases size_st_cases env dm cb with h | h | ⟨n, h⟩
      · rw [h]; exact preservesSource_refl dm
      · rw [h]; exact preservesSource_getBlobSt env dm
      · rw [h]; exact preservesSource_setSize dm _ (some n) (preservesSource_getBlobSt env dm)
  | aSaveAs fn =>
      simp only [applyOp]
      rcases saveAs_st_cases env dm fn with h | h
      · rw [h]; exact preservesSource_refl dm
      · rw [h]; exact preservesSource_getBlobSt env dm

/-- C8 (amended): across every sequence of accessor calls, the `url`
and `type` (MIME type) fields never change and a blob payload present
at the start is never cleared or replaced; however — see the
counterexample — the client `getDataUri` overwrites the stored data-URI
string with a re-encoded one, so a data-URI authoritative payload is
not preserved verbatim. -/
theorem c8_source_identity_amended (env : BrowserEnv) (dm : DataMan)
    (ops : List AccessorOp) :
    (runOps env dm ops).url = dm.url ∧
    (runOps env dm ops).type = dm.type ∧
    ∀ b, dm.blob = some b → (runOps env dm ops).blob = some b := by
  induction ops generalizing dm with
  | nil => exact ⟨rfl, rfl, fun _ h => h⟩
  | cons op rest ih =>
      have hstep := applyOp_preserves env dm op
      have hrest := ih (applyOp env dm op)
      have hdef : runOps env dm (op :: rest) = runOps env (applyOp env dm op) rest := rfl
      refine ⟨?_, ?_, ?_⟩
      · rw [hdef, hrest.1, hstep.1]
      · rw [hdef, hrest.2.1, hstep.2.1]
      · intro b hb
        rw [hdef]
        exact hrest.2.2 b (hstep.2.2 b hb)

/-- Witness for C8 (amended): a blob-backed instance through a
three-call sequence keeps its url, type and blob. -/
theorem c8_witness :
    (runOps stdEnv { blob := some ⟨[9], "text/plain"⟩, type := some "text/plain" }
        [.aGetDataUri true, .aSize true, .aGetBlob]).url = none ∧
    (runOps stdEnv { blob := some ⟨[9], "text/plain"⟩, type := some "text/plain" }
        [.aGetDataUri true, .aSize true, .aGetBlob]).type = some "text/plain" ∧
    (runOps stdEnv { blob := some ⟨[9], "text/plain"⟩, type := some "text/plain" }
        [.aGetDataUri true, .aSize true, .aGetBlob]).blob = some ⟨[9], "text/plain"⟩ := by
  refine ⟨?_, ?_, ?_⟩
  · exact (c8_source_identity_amended stdEnv
      { blob := some ⟨[9], "text/plain"⟩, type := some "text/plain" }
      [.aGetDataUri true, .aSize true, .aGetBlob]).1
  · exact (c8_source_identity_amended stdEnv
      { blob := some ⟨[9], "text/plain"⟩, type := some "text/plain" }
      [.aGetDataUri true, .aSize true, .aGetBlob]).2.1
  · exact (c8_source_identity_amended stdEnv
      { blob := some ⟨[9], "text/plain"⟩, type := some "text/plain" }
      [.aGetDataUri true, .aSize true, .aGetBlob]).2.2 ⟨[9], "text/plain"⟩ rfl

/-- Counterexample to C8 as stated: an instance constructed from a data
URI with a `charset` parameter has that very string as its
authoritative payload, but one `getDataUri` call replaces it with the
re-encoded canonical data URI, a different string. -/
theorem c8_counterexample :
    DataMan.construct stdEnv (.str "data:text/plain;charset=us-ascii;base64,SGVsbG8=") none
      = .ok { dataUri := some "data:text/plain;charset=us-ascii;base64,SGVsbG8=",
              type := some "text/plain" } ∧
    (DataMan.getDataUri stdEnv
        { dataUri := some "data:text/plain;charset=us-ascii;base64,SGVsbG8=",
          type := some "text/plain" } true).st.dataUri
      = some "data:text/plain;base64,SGVsbG8=" ∧
    ("data:text/plain;base64,SGVsbG8=" : String)
      ≠ "data:text/plain;charset=us-ascii;base64,SGVsbG8=" := by
  refine ⟨by decide, by decide, by decide⟩
